import Mathlib

/-!
# Passthrough relay server

A shallow embedding of the event handlers of the relay server
(`src/events/client.go`, `src/events/car.go`, `src/state/car.go`,
`src/config/webrtc.go`): the peer registry, the control arbitration
(take-over and release), the frame and control relays and the
connection-state handlers.

Handlers are pure functions from the server state to the new server state
together with the list of sends they perform. A send is one call of a send
operation of a connection handle; whether the transport then delivers the
message is decided by the handle and never changes what a handler does next,
apart from what it logs or returns.
-/

namespace Passthrough

/-! ## Configuration (`src/config/webrtc.go`) -/

/-- The registry key that identifies the car connection. -/
def CarId : String := "car"

/-- Label of the meta data channel. -/
def MetaChannelLabel : String := "meta"

/-- Label of the control data channel. -/
def ControlChannelLabel : String := "control"

/-- Label of the frame data channel. -/
def FrameChannelLabel : String := "frame"

/-! ## The transport and the protocol envelope -/

/-- Opaque payload bytes of the control and frame channels. -/
abbrev Bytes := List Nat

/-- Connection states reported by the transport (`webrtc.PeerConnectionState`). -/
inductive PeerConnectionState where
  | Unknown
  | New
  | Connecting
  | Connected
  | Disconnected
  | Failed
  | Closed
  deriving DecidableEq, Repr

/-- The kind of a control request carried by the meta channel. -/
inductive HumanControlRequestType where
  | HUMAN_CONTROL_TAKEOVER
  | HUMAN_CONTROL_RELEASE
  | Other (n : Nat)
  deriving DecidableEq, Repr

/-- Modelled from the spec: the protocol envelope of the meta channel
(`pb_remote_config_messages.ConfigMessage`), a tagged variant with exactly
one action; `Unset` stands for an envelope with no supported action. -/
inductive ConfigMessage where
  | CarState (Connected : Bool) (TimestampOffset : Int)
  | HumanControlState (ActiveControllerId : String)
  | HumanControlRequest (type : HumanControlRequestType)
  | Error (Message : String)
  | Unset
  deriving DecidableEq, Repr

/-- Modelled from the spec: a data channel of a connection handle. A send on
it either succeeds (`SendError = none`) or fails with a transport error. -/
structure DataChannel where
  Label : String
  SendError : Option String
  deriving DecidableEq, Repr

/-- Modelled from the spec: the transport session of a handle, with its
current connection state and the answer it produced for the offer. -/
structure PeerConnection where
  ConnectionState : PeerConnectionState
  LocalDescription : String
  deriving DecidableEq, Repr

/-- Modelled from the spec: the connection handle (`rtc.RTC` of the transport
library): identity, transport session, clock offset and the three channel
handles, each absent until the channel is opened. The source shares handles
by pointer: `Ref` is the address of the handle object, so two values are the
same handle exactly when they have the same `Ref`, and the other fields are
what the object holds at the moment. -/
structure RTC where
  Ref : Nat
  Id : String
  Pc : PeerConnection
  TimestampOffset : Int
  MetaChannel : Option DataChannel
  ControlChannel : Option DataChannel
  FrameChannel : Option DataChannel
  deriving DecidableEq, Repr

/-- Modelled from the spec: whether the handle reports the connected state. -/
def RTC.IsConnected (r : RTC) : Bool :=
  r.Pc.ConnectionState == PeerConnectionState.Connected

/-- Modelled from the spec: the error returned by sending an envelope on the
meta channel of a handle (`none` when the send succeeds). -/
def RTC.SendMetaMessage (r : RTC) (_msg : ConfigMessage) : Option String :=
  match r.MetaChannel with
  | none => some "meta channel is not open"
  | some dc => dc.SendError

/-- Modelled from the spec: the error returned by sending bytes on the control
channel of a handle. -/
def RTC.SendControlBytes (r : RTC) (_data : Bytes) : Option String :=
  match r.ControlChannel with
  | none => some "control channel is not open"
  | some dc => dc.SendError

/-- Modelled from the spec: releasing a handle closes its transport session. -/
def RTC.Destroy (r : RTC) : RTC :=
  { r with Pc := { r.Pc with ConnectionState := PeerConnectionState.Closed } }

/-- One call of a send operation of a handle: the handle it was called on,
the channel, and the message. -/
inductive Sent where
  | Meta (peer : RTC) (msg : ConfigMessage)
  | Control (peer : RTC) (data : Bytes)
  | Frame (peer : RTC) (data : Bytes)
  deriving DecidableEq, Repr

/-! ## The peer registry -/

/-- Modelled from the spec: the role of a registered peer. -/
inductive Role where
  | Producer
  | Client
  deriving DecidableEq, Repr

/-- Modelled from the spec: one registry entry, the identity it is registered
under, its role and its connection handle. -/
structure Entry where
  id : String
  role : Role
  rtc : RTC
  deriving DecidableEq, Repr

/-- Modelled from the spec: the peer registry (`rtc.RTCMap`), a mapping from
identity to peer, kept here as the list of its entries. -/
abbrev RTCMap := List Entry

/-- Modelled from the spec: a new, empty registry. -/
def NewRTCMap : RTCMap := []

/-- Modelled from the spec: `Get(id)` returns the handle or absent. -/
def RTCMap.Get (m : RTCMap) (id : String) : Option RTC :=
  (m.find? (fun e => e.id == id)).map Entry.rtc

/-- Modelled from the spec: `Add(id, handle, exclusive)` fails with a
duplicate error if `exclusive` and any entry already has role Producer, or
if `id` is already present; an exclusive add registers the producer. -/
def RTCMap.Add (m : RTCMap) (id : String) (rtc : RTC) (exclusive : Bool) :
    Except String RTCMap :=
  if exclusive && m.any (fun e => e.role == Role.Producer) then
    Except.error "a producer is already registered"
  else if m.any (fun e => e.id == id) then
    Except.error "a peer with this id is already registered"
  else
    Except.ok (m ++ [⟨id, if exclusive then Role.Producer else Role.Client, rtc⟩])

/-- Modelled from the spec: `Remove(id)` is idempotent and reports no error
if the identity is absent. -/
def RTCMap.Remove (m : RTCMap) (id : String) : RTCMap :=
  m.filter (fun e => e.id != id)

/-- Modelled from the spec: `ForEach(visit)` invokes `visit` once per peer
over a snapshot of the registry; the sends of the visits are collected in
the order of the snapshot. -/
def RTCMap.ForEach (m : RTCMap) (visit : String → RTC → List Sent) : List Sent :=
  m.flatMap (fun e => visit e.id e.rtc)

/-- Modelled from the spec: all entries of the registry, without locking. -/
def RTCMap.UnsafeGetAll (m : RTCMap) : List Entry := m

/-- Handles are shared by pointer in the source, so a change of a handle
object is seen through every registry entry that points to it: the entries
whose handle has the address of `old` now hold `new`. Entries that hold
another handle object are untouched, whatever their fields. -/
def RTCMap.mutate (m : RTCMap) (old new : RTC) : RTCMap :=
  m.map (fun e => if e.rtc.Ref = old.Ref then { e with rtc := new } else e)

/-! ## The server state (`src/state/car.go`) -/

/-- The server state: the registry of connected peers and the id of the
controller that is currently controlling the car (empty for none). The lock
is not a field of the model: a handler that holds it throughout runs
atomically, and where a handler uses separate critical sections, what other
handlers do to the state in between is a parameter of its embedding. -/
structure ServerState where
  ConnectedPeers : RTCMap
  ActiveController : String
  deriving DecidableEq, Repr

/-- The state built by `NewServerState` once the transport engine is set up. -/
def NewServerState : ServerState :=
  { ConnectedPeers := NewRTCMap, ActiveController := "" }

/-- Embedding of `ServerState.Destroy`: every peer of the registry is removed
under its handle id and its handle is released; the active controller is not
touched. -/
def ServerState.Destroy (s : ServerState) : ServerState :=
  { s with
    ConnectedPeers :=
      s.ConnectedPeers.UnsafeGetAll.foldl
        (fun m peer => (m.Remove peer.rtc.Id).mutate peer.rtc peer.rtc.Destroy)
        s.ConnectedPeers }

/-- What a handler that returns an error value leaves behind. -/
structure Result where
  err : Option String
  state : ServerState
  sent : List Sent
  deriving DecidableEq, Repr

/-- What a handler without a return value leaves behind. -/
structure Effect where
  state : ServerState
  sent : List Sent
  deriving DecidableEq, Repr

/-- The error of `errors.Join(sendErr, err)` when the error envelope could not
be sent, `err` itself otherwise. -/
def joinSendErr (sendErr : Option String) (err : String) : String :=
  match sendErr with
  | some e => e ++ "\n" ++ err
  | none => err

/-! ## Control arbitration (`src/events/client.go`) -/

/-- Embedding of `onClientRequestControlTakeover`: the request is refused when the entry
registered under the active controller id is connected and has another id
than the requester; otherwise the requester becomes the active controller
and the new controller state is sent to every registered peer. -/
def onClientRequestControlTakeover (client : RTC) (state : ServerState) : Result :=
  let currentController := state.ConnectedPeers.Get state.ActiveController
  let refused : Bool :=
    match currentController with
    | some cc => cc.IsConnected && cc.Id != client.Id
    | none => false
  if refused then
    let err := "Cannot request control takeover: there is already an active controller"
    let notification := ConfigMessage.Error err
    let sendErr := client.SendMetaMessage notification
    { err := some (joinSendErr sendErr err), state := state,
      sent := [Sent.Meta client notification] }
  else
    let state1 := { state with ActiveController := client.Id }
    let notification := ConfigMessage.HumanControlState client.Id
    { err := none, state := state1,
      sent := state1.ConnectedPeers.ForEach (fun _ r => [Sent.Meta r notification]) }

/-- Embedding of `onClientRequestControlRelease`: refused unless the requester is the
active controller; otherwise the active controller is cleared and the new
controller state is sent to every registered peer. -/
def onClientRequestControlRelease (client : RTC) (state : ServerState) : Result :=
  let currentController := state.ActiveController
  if currentController != client.Id then
    let err := "Cannot release control: you are not the active controller"
    let notification := ConfigMessage.Error err
    let sendErr := client.SendMetaMessage notification
    { err := some (joinSendErr sendErr err), state := state,
      sent := [Sent.Meta client notification] }
  else
    let state1 := { state with ActiveController := "" }
    let notification := ConfigMessage.HumanControlState ""
    { err := none, state := state1,
      sent := state1.ConnectedPeers.ForEach (fun _ r => [Sent.Meta r notification]) }

/-- The meta message callback of `registerClientMetaMessage`. `msg` is the
outcome of parsing the received bytes. A parse failure is answered with an
error envelope; control requests are dispatched; the returned error is the
one the callback logs. -/
def registerClientMetaMessage.OnMessage (client : RTC) (state : ServerState)
    (msg : Except String ConfigMessage) : Result :=
  match msg with
  | Except.error e =>
    { err := none, state := state, sent := [Sent.Meta client (ConfigMessage.Error e)] }
  | Except.ok (ConfigMessage.HumanControlRequest type) =>
    if type = HumanControlRequestType.HUMAN_CONTROL_RELEASE then
      onClientRequestControlRelease client state
    else if type = HumanControlRequestType.HUMAN_CONTROL_TAKEOVER then
      onClientRequestControlTakeover client state
    else
      { err := some "Unknown human control request type", state := state, sent := [] }
  | Except.ok _ =>
    { err := some "Meta message action is not supported", state := state, sent := [] }

/-! ## Relays -/

/-- The control message callback of `registerClientControlMessage`: the
payload is forwarded to the control channel of the handle registered under
`CarId`; a failed forward is reported to the sending client; without a car
every registered peer is told that the car is not connected. -/
def registerClientControlMessage.OnMessage (client : RTC) (state : ServerState)
    (data : Bytes) : Effect :=
  match state.ConnectedPeers.Get CarId with
  | some car =>
    match car.SendControlBytes data with
    | some err =>
      { state := state,
        sent := [Sent.Control car data, Sent.Meta client (ConfigMessage.Error err)] }
    | none => { state := state, sent := [Sent.Control car data] }
  | none =>
    let notification := ConfigMessage.CarState false 0
    { state := state,
      sent := state.ConnectedPeers.ForEach (fun _ r => [Sent.Meta r notification]) }

/-- The frame message callback of `registerCarFrameMessage`: the payload is
sent on the frame channel of every registry entry whose key is not `CarId`. -/
def registerCarFrameMessage.OnMessage (state : ServerState) (data : Bytes) : Effect :=
  { state := state,
    sent := state.ConnectedPeers.ForEach
      (fun id r => if id == CarId then [] else [Sent.Frame r data]) }

/-! ## Connection-state handlers -/

/-- Embedding of `onClientConnectionChange`, the callback for a new connection
state `s` of `client`. On a terminal state the client is removed under its
id and its handle released; the active controller is then read in one
critical section and, if it is the id of the client, cleared in a second
critical section and announced. Other handlers can run between the two
sections: `between` is what they do to the state there (the identity when
none runs). On `Connected` the client is told the state of the car, if one
is registered (the source sleeps two seconds before the send). -/
def onClientConnectionChange (client : RTC) (state : ServerState)
    (s : PeerConnectionState) (between : ServerState → ServerState) : Effect :=
  if s = PeerConnectionState.Disconnected ∨ s = PeerConnectionState.Closed
      ∨ s = PeerConnectionState.Failed then
    let state1 :=
      { state with
        ConnectedPeers :=
          (state.ConnectedPeers.Remove client.Id).mutate client client.Destroy }
    let activeController := state1.ActiveController
    if activeController = client.Id then
      let state2 := between state1
      let state3 := { state2 with ActiveController := "" }
      let notification := ConfigMessage.HumanControlState ""
      { state := state3,
        sent := state3.ConnectedPeers.ForEach (fun _ r => [Sent.Meta r notification]) }
    else
      { state := state1, sent := [] }
  else if s = PeerConnectionState.Connected then
    match state.ConnectedPeers.Get CarId with
    | none => { state := state, sent := [] }
    | some car =>
      let notification :=
        ConfigMessage.CarState
          (car.Pc.ConnectionState == PeerConnectionState.Connected) car.TimestampOffset
      { state := state, sent := [Sent.Meta client notification] }
  else
    { state := state, sent := [] }

/-- Embedding of `onCarConnectionChange`, the callback for a new connection state `s` of
`car`: every registry entry whose handle id differs from the id of `car` is
sent the car state; on a terminal state the registry entry under the id of
`car` is removed and the handle released. -/
def onCarConnectionChange (car : RTC) (state : ServerState)
    (s : PeerConnectionState) : Effect :=
  let notification :=
    ConfigMessage.CarState (s == PeerConnectionState.Connected) car.TimestampOffset
  let sent :=
    state.ConnectedPeers.ForEach
      (fun _ r => if r.Id != car.Id then [Sent.Meta r notification] else [])
  if s = PeerConnectionState.Connected then
    { state := state, sent := sent }
  else if s = PeerConnectionState.Disconnected ∨ s = PeerConnectionState.Closed
      ∨ s = PeerConnectionState.Failed then
    { state :=
        { state with
          ConnectedPeers := (state.ConnectedPeers.Remove car.Id).mutate car car.Destroy },
      sent := sent }
  else
    { state := state, sent := sent }

/-! ## Offers -/

/-- A session description as submitted in an offer. -/
structure SessionDescription where
  SDP : String
  deriving DecidableEq, Repr

/-- An offer as parsed by the signaling layer (`rtc.RequestSDP`). -/
structure RequestSDP where
  Offer : SessionDescription
  Id : String
  Timestamp : Int
  deriving DecidableEq, Repr

/-- A signed 64 bit result of an integer operation. -/
def wrapInt64 (x : Int) : Int := (x + 2 ^ 63) % 2 ^ 64 - 2 ^ 63

/-- Modelled from the spec: `peerconnection.CreateFromOffer`, which is not
among the sources. An offer is accepted unless it is malformed (here: an
empty description); the handle of an accepted offer is a new object, at the
address `ref`, carries the offered id, is in state `New` and has no open
channel. -/
def CreateFromOffer (ref : Nat) (offer : SessionDescription) (id : String) :
    Except String RTC :=
  if offer.SDP = "" then
    Except.error "malformed offer"
  else
    Except.ok
      { Ref := ref, Id := id,
        Pc := { ConnectionState := PeerConnectionState.New, LocalDescription := offer.SDP },
        TimestampOffset := 0, MetaChannel := none, ControlChannel := none,
        FrameChannel := none }

/-- Embedding of `OnClientSDPReceived`: a handle is created from the offer and
added to the registry under the offered id, not exclusively. `create` is the
constructor of handles, `peerconnection.CreateFromOffer`, and `ref` the
address at which it allocates the new handle. The answer payload is the
local description of the handle. -/
def OnClientSDPReceived (create : Nat → SessionDescription → String → Except String RTC)
    (ref : Nat) (sdp : RequestSDP) (state : ServerState) :
    Except String String × ServerState :=
  match create ref sdp.Offer sdp.Id with
  | Except.error e => (Except.error e, state)
  | Except.ok rtc =>
    match state.ConnectedPeers.Add sdp.Id rtc false with
    | Except.error e => (Except.error e, state)
    | Except.ok peers =>
      (Except.ok rtc.Pc.LocalDescription, { state with ConnectedPeers := peers })

/-- Embedding of `OnCarSDPReceived`: a handle is created from the offer (at the
address `ref`), its clock offset is set to the offer timestamp minus the
time of receipt, and it is added to the registry under `CarId`, exclusively. -/
def OnCarSDPReceived (create : Nat → SessionDescription → String → Except String RTC)
    (ref : Nat) (sdp : RequestSDP) (receivedAt : Int) (state : ServerState) :
    Except String String × ServerState :=
  match create ref sdp.Offer sdp.Id with
  | Except.error e => (Except.error e, state)
  | Except.ok rtc0 =>
    let rtc := { rtc0 with TimestampOffset := wrapInt64 (sdp.Timestamp - receivedAt) }
    match state.ConnectedPeers.Add CarId rtc true with
    | Except.error e => (Except.error e, state)
    | Except.ok peers =>
      (Except.ok rtc.Pc.LocalDescription, { state with ConnectedPeers := peers })

/-! ## Runs of the server -/

/-- The events that drive the server. A handle named by an event is the
handle as it is when the event arrives. -/
inductive Event where
  | ClientSDP (sdp : RequestSDP)
  | CarSDP (sdp : RequestSDP) (receivedAt : Int)
  | ClientConnectionState (client : RTC) (s : PeerConnectionState)
  | CarConnectionState (car : RTC) (s : PeerConnectionState)
  | ClientChannelOpen (client : RTC) (d : DataChannel)
  | CarChannelOpen (car : RTC) (d : DataChannel)
  | ClientMeta (client : RTC) (msg : Except String ConfigMessage)
  | ClientControl (client : RTC) (data : Bytes)
  | CarFrame (data : Bytes)
  | Destroy

/-- The handle of a client after one of its data channels was opened: the
three known labels are bound, others ignored. -/
def openClientChannel (client : RTC) (d : DataChannel) : RTC :=
  if d.Label = ControlChannelLabel then { client with ControlChannel := some d }
  else if d.Label = MetaChannelLabel then { client with MetaChannel := some d }
  else if d.Label = FrameChannelLabel then { client with FrameChannel := some d }
  else client

/-- The handle of the car after one of its data channels was opened: only
the control channel is bound by `OnCarSDPReturned`. -/
def openCarChannel (car : RTC) (d : DataChannel) : RTC :=
  if d.Label = ControlChannelLabel then { car with ControlChannel := some d } else car

/-- The handle after the transport moved it to connection state `s`. -/
def RTC.withState (r : RTC) (s : PeerConnectionState) : RTC :=
  { r with Pc := { r.Pc with ConnectionState := s } }

/-- One event, handled with no other handler running in between: the new
state and the sends of the handler it triggers. `ref` is the address at
which an offer allocates its handle. -/
def step (create : Nat → SessionDescription → String → Except String RTC)
    (ref : Nat) (state : ServerState) (ev : Event) : Effect :=
  match ev with
  | Event.ClientSDP sdp =>
    { state := (OnClientSDPReceived create ref sdp state).2, sent := [] }
  | Event.CarSDP sdp receivedAt =>
    { state := (OnCarSDPReceived create ref sdp receivedAt state).2, sent := [] }
  | Event.ClientConnectionState client s =>
    onClientConnectionChange (client.withState s)
      { state with
        ConnectedPeers := state.ConnectedPeers.mutate client (client.withState s) } s id
  | Event.CarConnectionState car s =>
    onCarConnectionChange (car.withState s)
      { state with ConnectedPeers := state.ConnectedPeers.mutate car (car.withState s) } s
  | Event.ClientChannelOpen client d =>
    { state :=
        { state with
          ConnectedPeers := state.ConnectedPeers.mutate client (openClientChannel client d) },
      sent := [] }
  | Event.CarChannelOpen car d =>
    { state :=
        { state with
          ConnectedPeers := state.ConnectedPeers.mutate car (openCarChannel car d) },
      sent := [] }
  | Event.ClientMeta client msg =>
    let r := registerClientMetaMessage.OnMessage client state msg
    { state := r.state, sent := r.sent }
  | Event.ClientControl client data => registerClientControlMessage.OnMessage client state data
  | Event.CarFrame data => registerCarFrameMessage.OnMessage state data
  | Event.Destroy => { state := state.Destroy, sent := [] }

/-- The state after a sequence of events, the first of which allocates at the
address `ref`, the next at `ref + 1`, and so on: every offer gets a handle
object of its own. -/
def runFrom (create : Nat → SessionDescription → String → Except String RTC) :
    Nat → ServerState → List Event → ServerState
  | _, state, [] => state
  | ref, state, ev :: events =>
    runFrom create (ref + 1) (step create ref state ev).state events

/-- The state after a sequence of events; the event at position `n` of the
sequence allocates at the address `n`. -/
def run (create : Nat → SessionDescription → String → Except String RTC)
    (state : ServerState) (events : List Event) : ServerState :=
  runFrom create 0 state events

/-- The sends of a sequence of events, in order, the first event allocating at
the address `ref`. -/
def runSent (create : Nat → SessionDescription → String → Except String RTC) :
    Nat → ServerState → List Event → List Sent
  | _, _, [] => []
  | ref, state, ev :: events =>
    (step create ref state ev).sent ++
      runSent create (ref + 1) (step create ref state ev).state events

/-! ## Sample peers, states and runs, and the quantities of the statements -/

/-- An address for a sample handle, computed from its id, so that sample
handles with different ids are different objects. -/
def sampleRef (id : String) : Nat :=
  id.toList.foldl (fun n c => 256 * n + c.toNat + 1) 0

/-- A connected client handle with its three channels open. -/
def sampleClient (id : String) : RTC :=
  { Ref := 2 * sampleRef id,
    Id := id,
    Pc := { ConnectionState := PeerConnectionState.Connected, LocalDescription := "answer" },
    TimestampOffset := 0,
    MetaChannel := some ⟨MetaChannelLabel, none⟩,
    ControlChannel := some ⟨ControlChannelLabel, none⟩,
    FrameChannel := some ⟨FrameChannelLabel, none⟩ }

/-- A connected car handle that offered under `id`, with an open control
channel on which sends succeed. -/
def sampleCar (id : String) : RTC :=
  { Ref := 2 * sampleRef id + 1,
    Id := id,
    Pc := { ConnectionState := PeerConnectionState.Connected, LocalDescription := "answer" },
    TimestampOffset := 7,
    MetaChannel := none,
    ControlChannel := some ⟨ControlChannelLabel, none⟩,
    FrameChannel := none }

/-- The error message of a refused release. -/
def releaseRefused : String :=
  "Cannot release control: you are not the active controller"

/-- The handle that `CreateFromOffer` returns at the address `ref` for the
description `v=0`. -/
def newHandle (ref : Nat) (id : String) : RTC :=
  { Ref := ref, Id := id,
    Pc := { ConnectionState := PeerConnectionState.New, LocalDescription := "v=0" },
    TimestampOffset := 0, MetaChannel := none, ControlChannel := none,
    FrameChannel := none }

/-- The events that lead to a state with a connected client of empty id: its
offer (an offer without an id carries the empty id) and its connection. -/
def emptyIdEvents : List Event :=
  [ Event.ClientSDP ⟨⟨"v=0"⟩, "", 0⟩,
    Event.ClientConnectionState (newHandle 0 "") PeerConnectionState.Connected ]

/-- A state with a car and two clients in which client A holds control. -/
def controlledState : ServerState :=
  { ConnectedPeers := [⟨CarId, Role.Producer, sampleCar "rover"⟩,
      ⟨"A", Role.Client, sampleClient "A"⟩, ⟨"B", Role.Client, sampleClient "B"⟩],
    ActiveController := "A" }

/-- A car offers as rover and connects; a client offer under the id `car` is
rejected as a duplicate and that handle fails, which removes the entry of
the car; then a client offers under the id `car` and is registered, and
client B offers. The car is still connected. -/
def carKeyTakenEvents : List Event :=
  [ Event.CarSDP ⟨⟨"v=0"⟩, "rover", 5⟩ 3,
    Event.CarConnectionState { newHandle 0 "rover" with TimestampOffset := 2 }
      PeerConnectionState.Connected,
    Event.ClientSDP ⟨⟨"v=0"⟩, "car", 0⟩,
    Event.ClientConnectionState (newHandle 2 "car") PeerConnectionState.Failed,
    Event.ClientSDP ⟨⟨"v=0"⟩, "car", 0⟩,
    Event.ClientSDP ⟨⟨"v=0"⟩, "B", 0⟩ ]

/-- ActiveController is empty or the key of a registry entry that is a
connected client. -/
def controllerValid (s : ServerState) : Bool :=
  s.ActiveController == "" ||
    s.ConnectedPeers.any
      (fun e => e.id == s.ActiveController && e.rtc.IsConnected && e.role == Role.Client)

/-- Client A offers, connects, opens its meta channel and takes control. -/
def takeControlEvents : List Event :=
  [ Event.ClientSDP ⟨⟨"v=0"⟩, "A", 0⟩,
    Event.ClientConnectionState (newHandle 0 "A") PeerConnectionState.Connected,
    Event.ClientChannelOpen ((newHandle 0 "A").withState PeerConnectionState.Connected)
      ⟨MetaChannelLabel, none⟩,
    Event.ClientMeta
      (openClientChannel ((newHandle 0 "A").withState PeerConnectionState.Connected)
        ⟨MetaChannelLabel, none⟩)
      (Except.ok (ConfigMessage.HumanControlRequest
        HumanControlRequestType.HUMAN_CONTROL_TAKEOVER)) ]

/-- The number of registry entries with role Producer. -/
def producerCount (m : RTCMap) : Nat :=
  m.countP (fun e => e.role == Role.Producer)

/-- The number of registry entries registered under the key `k`. -/
def keyCount (m : RTCMap) (k : String) : Nat :=
  m.countP (fun e => e.id == k)

/-- The registry holds at most one producer and at most one entry per key. -/
def RegistryOk (m : RTCMap) : Prop :=
  producerCount m ≤ 1 ∧ ∀ k, keyCount m k ≤ 1

/-- The handle of a car that offered first, under the id A at time 5,
received at time 3. -/
def carHandleA : RTC :=
  { newHandle 0 "A" with TimestampOffset := 2 }

/-- A car offers under the id A, a client offers under the same id A, and
both connect. -/
def sameIdEvents : List Event :=
  [ Event.CarSDP ⟨⟨"v=0"⟩, "A", 5⟩ 3,
    Event.ClientSDP ⟨⟨"v=0"⟩, "A", 0⟩,
    Event.CarConnectionState carHandleA PeerConnectionState.Connected,
    Event.ClientConnectionState (newHandle 1 "A") PeerConnectionState.Connected ]

/-- After `sameIdEvents` the client opens its meta channel and takes control,
and then the car disconnects. -/
def sameIdTakeoverEvents : List Event :=
  sameIdEvents ++
  [ Event.ClientChannelOpen ((newHandle 1 "A").withState PeerConnectionState.Connected)
      ⟨MetaChannelLabel, none⟩,
    Event.ClientMeta
      (openClientChannel ((newHandle 1 "A").withState PeerConnectionState.Connected)
        ⟨MetaChannelLabel, none⟩)
      (Except.ok (ConfigMessage.HumanControlRequest
        HumanControlRequestType.HUMAN_CONTROL_TAKEOVER)),
    Event.CarConnectionState (carHandleA.withState PeerConnectionState.Connected)
      PeerConnectionState.Disconnected ]

/-- The handle of a car that offered first, under the id rover at time 5,
received at time 3. -/
def roverHandle : RTC :=
  { newHandle 0 "rover" with TimestampOffset := 2 }

/-- A car offers as rover and is still in state `New`; client B offers and
connects. -/
def pendingCarEvents : List Event :=
  [ Event.CarSDP ⟨⟨"v=0"⟩, "rover", 5⟩ 3,
    Event.ClientSDP ⟨⟨"v=0"⟩, "B", 0⟩,
    Event.ClientConnectionState (newHandle 1 "B") PeerConnectionState.Connected ]

/-- A car offers as rover, connects, and then disconnects. -/
def roverGoneEvents : List Event :=
  [ Event.CarSDP ⟨⟨"v=0"⟩, "rover", 5⟩ 3,
    Event.CarConnectionState roverHandle PeerConnectionState.Connected,
    Event.CarConnectionState (roverHandle.withState PeerConnectionState.Connected)
      PeerConnectionState.Disconnected ]

/-- The handle that `CreateFromOffer` returns for the third event of
`duplicateOfferEvents`, a second offer under the id A with the description
`v=1`. -/
def rejectedHandle : RTC :=
  { Ref := 2, Id := "A",
    Pc := { ConnectionState := PeerConnectionState.New, LocalDescription := "v=1" },
    TimestampOffset := 0, MetaChannel := none, ControlChannel := none,
    FrameChannel := none }

/-- Client A offers and connects; a second offer under the id A arrives and
is rejected by `Add` as a duplicate. -/
def duplicateOfferEvents : List Event :=
  [ Event.ClientSDP ⟨⟨"v=0"⟩, "A", 0⟩,
    Event.ClientConnectionState (newHandle 0 "A") PeerConnectionState.Connected,
    Event.ClientSDP ⟨⟨"v=1"⟩, "A", 0⟩ ]

/-- A connected car handle whose control channel is open and on which every
send fails. -/
def failingCar : RTC :=
  { sampleCar "rover" with
    ControlChannel := some ⟨ControlChannelLabel, some "send failed"⟩ }

/-- A state with the car `failingCar` and two clients, A holding control. -/
def failingCarState : ServerState :=
  { ConnectedPeers := [⟨CarId, Role.Producer, failingCar⟩,
      ⟨"A", Role.Client, sampleClient "A"⟩, ⟨"B", Role.Client, sampleClient "B"⟩],
    ActiveController := "A" }

/-- A car and a client whose handles hold the same fields and are different
objects: the car offered under the id A and the client offered under the
same id A, at the same instant. -/
def twinState : ServerState :=
  { ConnectedPeers := [⟨CarId, Role.Producer, newHandle 0 "A"⟩,
      ⟨"A", Role.Client, newHandle 1 "A"⟩],
    ActiveController := "A" }

/-! ## Basic facts about the registry -/

theorem ForEach_single (m : RTCMap) (f : RTC → Sent) :
    RTCMap.ForEach m (fun _ r => [f r]) = m.map (fun e => f e.rtc) := by
  induction m with
  | nil => rfl
  | cons e m ih =>
    have h := ih
    simp only [RTCMap.ForEach] at h ⊢
    simp [List.flatMap_cons, h]

theorem ForEach_filter (m : RTCMap) (p : String → RTC → Bool) (f : RTC → Sent) :
    RTCMap.ForEach m (fun id r => if p id r then [f r] else []) =
      (m.filter (fun e => p e.id e.rtc)).map (fun e => f e.rtc) := by
  induction m with
  | nil => rfl
  | cons e m ih =>
    have h := ih
    simp only [RTCMap.ForEach] at h ⊢
    by_cases hp : p e.id e.rtc = true
    · simp [List.flatMap_cons, h, hp, List.filter_cons]
    · simp [List.flatMap_cons, h, hp, List.filter_cons]

theorem joinSendErr_ne_none (e : Option String) (msg : String) :
    (some (joinSendErr e msg) : Option String) ≠ none := by
  simp

/-! ## C1: take-over while no controller is active -/

/-- The state after `emptyIdEvents` holds no controller and has the client of
empty id registered and connected. -/
theorem emptyIdEvents_run :
    (run CreateFromOffer NewServerState emptyIdEvents).ActiveController = "" ∧
    ((run CreateFromOffer NewServerState emptyIdEvents).ConnectedPeers.Get "").map
      RTC.IsConnected = some true := by
  decide

/-- The outcome of a release by the active controller. -/
theorem release_granted (client : RTC) (state : ServerState)
    (h : state.ActiveController = client.Id) :
    onClientRequestControlRelease client state =
      { err := none,
        state := { state with ActiveController := "" },
        sent := state.ConnectedPeers.map
          (fun e => Sent.Meta e.rtc (ConfigMessage.HumanControlState "")) } := by
  unfold onClientRequestControlRelease
  simp [h, ForEach_single]

/-- The outcome of a release by anyone else. -/
theorem release_refused (client : RTC) (state : ServerState)
    (h : state.ActiveController ≠ client.Id) :
    onClientRequestControlRelease client state =
      { err := some (joinSendErr
          (client.SendMetaMessage (ConfigMessage.Error releaseRefused)) releaseRefused),
        state := state,
        sent := [Sent.Meta client (ConfigMessage.Error releaseRefused)] } := by
  unfold onClientRequestControlRelease
  simp [h, releaseRefused]

/-- C3: in every state with ActiveController = X.Id, the release of X returns
no error, sets ActiveController to the empty string, leaves the registry as
it was, and its sends are exactly one ControllerState envelope with
activeControllerId = "" to every entry of the registry. -/
theorem C3_release_by_controller (client : RTC) (state : ServerState)
    (h : state.ActiveController = client.Id) :
    (onClientRequestControlRelease client state).err = none ∧
    (onClientRequestControlRelease client state).state.ActiveController = "" ∧
    (onClientRequestControlRelease client state).state.ConnectedPeers =
      state.ConnectedPeers ∧
    (onClientRequestControlRelease client state).sent =
      state.ConnectedPeers.map
        (fun e => Sent.Meta e.rtc (ConfigMessage.HumanControlState "")) := by
  rw [release_granted client state h]
  exact ⟨rfl, rfl, rfl, rfl⟩

/-- C3 at a concrete state: the controller A releases, the car and both
clients are told. -/
theorem C3_release_by_controller_witness :
    (onClientRequestControlRelease (sampleClient "A")
      { ConnectedPeers := [⟨CarId, Role.Producer, sampleCar "rover"⟩,
          ⟨"A", Role.Client, sampleClient "A"⟩, ⟨"B", Role.Client, sampleClient "B"⟩],
        ActiveController := "A" }).sent =
      [ Sent.Meta (sampleCar "rover") (ConfigMessage.HumanControlState ""),
        Sent.Meta (sampleClient "A") (ConfigMessage.HumanControlState ""),
        Sent.Meta (sampleClient "B") (ConfigMessage.HumanControlState "") ] :=
  (C3_release_by_controller (sampleClient "A")
    { ConnectedPeers := [⟨CarId, Role.Producer, sampleCar "rover"⟩,
        ⟨"A", Role.Client, sampleClient "A"⟩, ⟨"B", Role.Client, sampleClient "B"⟩],
      ActiveController := "A" } rfl).2.2.2

/-- C4: in every state with ActiveController ≠ Y.Id, the release of Y returns
an error, leaves ActiveController and the registry unchanged, and its only
send is one Error envelope to Y; and a release that returns no error was
requested by the active controller. -/
theorem C4_release_by_other (client : RTC) (state : ServerState) :
    (state.ActiveController ≠ client.Id →
      (onClientRequestControlRelease client state).err ≠ none ∧
      (onClientRequestControlRelease client state).state = state ∧
      (onClientRequestControlRelease client state).sent =
        [Sent.Meta client (ConfigMessage.Error releaseRefused)]) ∧
    ((onClientRequestControlRelease client state).err = none →
      state.ActiveController = client.Id) := by
  by_cases h : state.ActiveController = client.Id
  · exact ⟨fun hn => absurd h hn, fun _ => h⟩
  · have hr := release_refused client state h
    refine ⟨fun _ => ?_, fun he => ?_⟩
    · rw [hr]; exact ⟨joinSendErr_ne_none _ _, rfl, rfl⟩
    · rw [hr] at he; exact absurd he (joinSendErr_ne_none _ _)

/-- C4 at a concrete state: B asks to release while A holds control. -/
theorem C4_release_by_other_witness :
    (onClientRequestControlRelease (sampleClient "B")
      { ConnectedPeers := [⟨"A", Role.Client, sampleClient "A"⟩,
          ⟨"B", Role.Client, sampleClient "B"⟩],
        ActiveController := "A" }).sent =
      [Sent.Meta (sampleClient "B") (ConfigMessage.Error releaseRefused)] :=
  ((C4_release_by_other (sampleClient "B")
    { ConnectedPeers := [⟨"A", Role.Client, sampleClient "A"⟩,
        ⟨"B", Role.Client, sampleClient "B"⟩],
      ActiveController := "A" }).1 (by decide)).2.2

/-! ## C5: the control relay and the active controller -/

/-- The same with a live producer: a car is registered and connected, its
entry is removed by the failure of a rejected client offer under the id
`car`, and a client then registers under `car`. A frame of the car, which is
still connected, reaches client B only. -/
theorem frame_skips_client_under_car_key :
    (run CreateFromOffer NewServerState carKeyTakenEvents).ConnectedPeers =
      [ ⟨CarId, Role.Client, newHandle 4 "car"⟩, ⟨"B", Role.Client, newHandle 5 "B"⟩ ] ∧
    (registerCarFrameMessage.OnMessage
      (run CreateFromOffer NewServerState carKeyTakenEvents) [4, 5]).sent =
      [Sent.Frame (newHandle 5 "B") [4, 5]] := by
  decide

/-- C7 fails on the code: after client A has offered, connected and taken
control (a state in which ActiveController names a registered, connected
client), Destroy removes every peer and leaves ActiveController = A, the id
of a peer that is no longer registered. -/
theorem C7_destroy_keeps_stale_controller :
    controllerValid (run CreateFromOffer NewServerState takeControlEvents) = true ∧
    run CreateFromOffer NewServerState (takeControlEvents ++ [Event.Destroy]) =
      { ConnectedPeers := [], ActiveController := "A" } ∧
    controllerValid
      (run CreateFromOffer NewServerState (takeControlEvents ++ [Event.Destroy])) = false := by
  decide

/-- A second path to a stale controller: a car and a client offered under the
same id A, the client took control, and the car disconnects. The car handler
removes the entry under the id of the car handle, which is the entry of the
client; the car entry stays, and ActiveController still names A. -/
theorem controller_entry_removed_by_car_event :
    run CreateFromOffer NewServerState sameIdTakeoverEvents =
      { ConnectedPeers :=
          [⟨CarId, Role.Producer, carHandleA.withState PeerConnectionState.Closed⟩],
        ActiveController := "A" } := by
  decide

/-! ## C8: at most one producer -/

theorem countP_mutate (m : RTCMap) (a b : RTC) (p : Entry → Bool)
    (hp : ∀ (e : Entry) (r : RTC), p { e with rtc := r } = p e) :
    (m.mutate a b).countP p = m.countP p := by
  unfold RTCMap.mutate
  rw [List.countP_map]
  congr 1
  funext e
  simp only [Function.comp]
  split
  · exact hp e b
  · rfl

theorem countP_Remove_le (m : RTCMap) (k : String) (p : Entry → Bool) :
    (m.Remove k).countP p ≤ m.countP p :=
  (List.filter_sublist m).countP_le p

theorem RegistryOk_mutate (m : RTCMap) (a b : RTC) (h : RegistryOk m) :
    RegistryOk (m.mutate a b) := by
  refine ⟨?_, fun k => ?_⟩
  · unfold producerCount
    rw [countP_mutate m a b (fun e => e.role == Role.Producer) (fun _ _ => rfl)]
    exact h.1
  · unfold keyCount
    rw [countP_mutate m a b (fun e => e.id == k) (fun _ _ => rfl)]
    exact h.2 k

theorem RegistryOk_Remove (m : RTCMap) (k : String) (h : RegistryOk m) :
    RegistryOk (m.Remove k) :=
  ⟨le_trans (countP_Remove_le m k _) h.1,
   fun k2 => le_trans (countP_Remove_le m k _) (h.2 k2)⟩

theorem RegistryOk_Add (m m2 : RTCMap) (id : String) (rtc : RTC) (exclusive : Bool)
    (h : RegistryOk m) (hadd : m.Add id rtc exclusive = Except.ok m2) :
    RegistryOk m2 := by
  unfold RTCMap.Add at hadd
  split at hadd
  · cases hadd
  · rename_i hprod
    split at hadd
    · cases hadd
    · rename_i hkey
      injection hadd with hm
      subst hm
      have hkey0 : m.countP (fun e => e.id == id) = 0 :=
        List.countP_eq_zero.2 (List.any_eq_false.1 (by simpa using hkey))
      refine ⟨?_, fun k => ?_⟩
      · unfold producerCount
        rw [List.countP_append, List.countP_singleton]
        cases exclusive with
        | false =>
          have := h.1
          unfold producerCount at this
          simpa using this
        | true =>
          have hnone : m.any (fun e => e.role == Role.Producer) = false := by
            simpa using hprod
          have h0 : m.countP (fun e => e.role == Role.Producer) = 0 :=
            List.countP_eq_zero.2 (List.any_eq_false.1 hnone)
          simp [h0]
      · unfold keyCount
        rw [List.countP_append, List.countP_singleton]
        by_cases hk : id = k
        · subst hk
          simp [hkey0]
        · have := h.2 k
          unfold keyCount at this
          simpa [hk] using this

theorem RegistryOk_foldl (l : List Entry) (m : RTCMap) (h : RegistryOk m) :
    RegistryOk
      (l.foldl (fun m peer => (m.Remove peer.rtc.Id).mutate peer.rtc peer.rtc.Destroy) m) := by
  induction l generalizing m with
  | nil => exact h
  | cons e l ih =>
    rw [List.foldl_cons]
    exact ih _ (RegistryOk_mutate _ _ _ (RegistryOk_Remove _ _ h))

theorem takeover_peers (client : RTC) (state : ServerState) :
    (onClientRequestControlTakeover client state).state.ConnectedPeers =
      state.ConnectedPeers := by
  unfold onClientRequestControlTakeover
  simp only
  split <;> rfl

theorem release_peers (client : RTC) (state : ServerState) :
    (onClientRequestControlRelease client state).state.ConnectedPeers =
      state.ConnectedPeers := by
  unfold onClientRequestControlRelease
  simp only
  split <;> rfl

theorem meta_peers (client : RTC) (state : ServerState) (msg : Except String ConfigMessage) :
    (registerClientMetaMessage.OnMessage client state msg).state.ConnectedPeers =
      state.ConnectedPeers := by
  unfold registerClientMetaMessage.OnMessage
  split
  · rfl
  · split
    · exact release_peers client state
    · split
      · exact takeover_peers client state
      · rfl
  · rfl

theorem control_peers (client : RTC) (state : ServerState) (data : Bytes) :
    (registerClientControlMessage.OnMessage client state data).state = state := by
  unfold registerClientControlMessage.OnMessage
  split
  · split <;> rfl
  · rfl

theorem clientChange_RegistryOk (client : RTC) (state : ServerState)
    (s : PeerConnectionState) (h : RegistryOk state.ConnectedPeers) :
    RegistryOk (onClientConnectionChange client state s id).state.ConnectedPeers := by
  unfold onClientConnectionChange
  split
  · simp only
    split
    · exact RegistryOk_mutate _ _ _ (RegistryOk_Remove _ _ h)
    · exact RegistryOk_mutate _ _ _ (RegistryOk_Remove _ _ h)
  · split
    · split <;> exact h
    · exact h

theorem carChange_RegistryOk (car : RTC) (state : ServerState)
    (s : PeerConnectionState) (h : RegistryOk state.ConnectedPeers) :
    RegistryOk (onCarConnectionChange car state s).state.ConnectedPeers := by
  unfold onCarConnectionChange
  simp only
  split
  · exact h
  · split
    · exact RegistryOk_mutate _ _ _ (RegistryOk_Remove _ _ h)
    · exact h

theorem clientSDP_RegistryOk
    (create : Nat → SessionDescription → String → Except String RTC) (ref : Nat)
    (sdp : RequestSDP) (state : ServerState) (h : RegistryOk state.ConnectedPeers) :
    RegistryOk (OnClientSDPReceived create ref sdp state).2.ConnectedPeers := by
  unfold OnClientSDPReceived
  split
  · exact h
  · split
    · exact h
    · rename_i hadd
      exact RegistryOk_Add _ _ _ _ _ h hadd

theorem carSDP_RegistryOk
    (create : Nat → SessionDescription → String → Except String RTC) (ref : Nat)
    (sdp : RequestSDP) (receivedAt : Int) (state : ServerState)
    (h : RegistryOk state.ConnectedPeers) :
    RegistryOk (OnCarSDPReceived create ref sdp receivedAt state).2.ConnectedPeers := by
  unfold OnCarSDPReceived
  split
  · exact h
  · simp only
    split
    · exact h
    · rename_i hadd
      exact RegistryOk_Add _ _ _ _ _ h hadd

theorem step_RegistryOk
    (create : Nat → SessionDescription → String → Except String RTC) (ref : Nat)
    (state : ServerState) (ev : Event) (h : RegistryOk state.ConnectedPeers) :
    RegistryOk (step create ref state ev).state.ConnectedPeers := by
  cases ev with
  | ClientSDP sdp => exact clientSDP_RegistryOk create ref sdp state h
  | CarSDP sdp receivedAt => exact carSDP_RegistryOk create ref sdp receivedAt state h
  | ClientConnectionState client s =>
    exact clientChange_RegistryOk _ _ s (RegistryOk_mutate _ _ _ h)
  | CarConnectionState car s =>
    exact carChange_RegistryOk _ _ s (RegistryOk_mutate _ _ _ h)
  | ClientChannelOpen client d => exact RegistryOk_mutate _ _ _ h
  | CarChannelOpen car d => exact RegistryOk_mutate _ _ _ h
  | ClientMeta client msg =>
    show RegistryOk (registerClientMetaMessage.OnMessage client state msg).state.ConnectedPeers
    rw [meta_peers]
    exact h
  | ClientControl client data =>
    show RegistryOk (registerClientControlMessage.OnMessage client state data).state.ConnectedPeers
    rw [control_peers]
    exact h
  | CarFrame data => exact h
  | Destroy => exact RegistryOk_foldl _ _ h

theorem runFrom_RegistryOk
    (create : Nat → SessionDescription → String → Except String RTC)
    (events : List Event) (ref : Nat) (state : ServerState)
    (h : RegistryOk state.ConnectedPeers) :
    RegistryOk (runFrom create ref state events).ConnectedPeers := by
  induction events generalizing ref state with
  | nil => exact h
  | cons ev events ih =>
    rw [runFrom]
    exact ih _ _ (step_RegistryOk create ref state ev h)

theorem run_RegistryOk (create : Nat → SessionDescription → String → Except String RTC)
    (events : List Event) (state : ServerState) (h : RegistryOk state.ConnectedPeers) :
    RegistryOk (run create state events).ConnectedPeers :=
  runFrom_RegistryOk create events 0 state h

theorem Add_exclusive_refused (m : RTCMap) (id : String) (rtc : RTC)
    (h : m.any (fun e => e.role == Role.Producer) = true ∨ m.Get id ≠ none) :
    ∃ e, m.Add id rtc true = Except.error e := by
  unfold RTCMap.Add
  by_cases hp : m.any (fun e => e.role == Role.Producer) = true
  · exact ⟨"a producer is already registered", by simp [hp]⟩
  · have hk : m.any (fun e => e.id == id) = true := by
      rcases h with h | h
      · exact absurd h hp
      · unfold RTCMap.Get at h
        cases hf : m.find? (fun e => e.id == id) with
        | none => rw [hf] at h; exact absurd rfl h
        | some x =>
          have hs : (m.find? (fun e => e.id == id)).isSome = true := by rw [hf]; rfl
          exact List.any_eq_true.2 (List.find?_isSome.1 hs)
    exact ⟨"a peer with this id is already registered", by simp [hp, hk]⟩

/-- C8: in every registry state that already holds a producer (an entry with
role Producer, or an entry under the producer key `CarId`), a car offer
returns an error and leaves the whole state, the existing producer entry
included, unchanged; and in every state reached from the initial state by
any sequence of events the registry holds at most one entry with role
Producer and at most one entry under `CarId`. `create` is the constructor of
handles and `ref` the address at which it allocates; `Add` is modelled from
the spec. -/
theorem C8_second_car_offer_refused
    (create : Nat → SessionDescription → String → Except String RTC) :
    (∀ (ref : Nat) (sdp : RequestSDP) (receivedAt : Int) (state : ServerState),
      (state.ConnectedPeers.any (fun e => e.role == Role.Producer) = true ∨
        state.ConnectedPeers.Get CarId ≠ none) →
      (∃ e, (OnCarSDPReceived create ref sdp receivedAt state).1 = Except.error e) ∧
      (OnCarSDPReceived create ref sdp receivedAt state).2 = state) ∧
    (∀ events : List Event,
      producerCount (run create NewServerState events).ConnectedPeers ≤ 1 ∧
      keyCount (run create NewServerState events).ConnectedPeers CarId ≤ 1) := by
  refine ⟨fun ref sdp receivedAt state hprod => ?_, fun events => ?_⟩
  · unfold OnCarSDPReceived
    cases hc : create ref sdp.Offer sdp.Id with
    | error e => exact ⟨⟨e, rfl⟩, rfl⟩
    | ok rtc0 =>
      obtain ⟨e, he⟩ := Add_exclusive_refused state.ConnectedPeers CarId
        { rtc0 with TimestampOffset := wrapInt64 (sdp.Timestamp - receivedAt) } hprod
      constructor
      · exact ⟨e, by simp [he]⟩
      · simp [he]
  · have hinit : RegistryOk NewServerState.ConnectedPeers :=
      ⟨by decide, fun k => by simp [keyCount, NewServerState, NewRTCMap]⟩
    have h := run_RegistryOk create events NewServerState hinit
    exact ⟨h.1, h.2 CarId⟩

/-- C8 at a concrete run: a car offers and is registered, a second car offers
and is refused, and the state is the one after the first offer. -/
theorem C8_second_car_offer_refused_witness :
    (OnCarSDPReceived CreateFromOffer 1 ⟨⟨"v=0"⟩, "rover2", 12⟩ 10
      (run CreateFromOffer NewServerState [Event.CarSDP ⟨⟨"v=0"⟩, "rover", 5⟩ 3])).2 =
      { ConnectedPeers :=
          [⟨CarId, Role.Producer, { newHandle 0 "rover" with TimestampOffset := 2 }⟩],
        ActiveController := "" } ∧
    producerCount
      (run CreateFromOffer NewServerState
        [Event.CarSDP ⟨⟨"v=0"⟩, "rover", 5⟩ 3,
         Event.CarSDP ⟨⟨"v=0"⟩, "rover2", 12⟩ 10]).ConnectedPeers ≤ 1 :=
  ⟨by decide,
   ((C8_second_car_offer_refused CreateFromOffer).2
      [Event.CarSDP ⟨⟨"v=0"⟩, "rover", 5⟩ 3,
       Event.CarSDP ⟨⟨"v=0"⟩, "rover2", 12⟩ 10]).1⟩

/-! ## C9: a client is gone -/

/-- C9: when the connection of a client reaches Disconnected, Failed or
Closed, the entries under its id are removed from the registry and every
entry under another id that holds another handle object is kept as it is.
If ActiveController equals the id of the client, ActiveController becomes
empty and the sends are exactly one ControllerState envelope with
activeControllerId = "" to every entry that is in the registry then, which
is the registry after the removal as left by the handlers that ran between
the read and the clearing of ActiveController (`between`; nothing else when
none ran). If ActiveController has another value, it is unchanged and
nothing is sent. -/
theorem C9_client_gone (client : RTC) (state : ServerState) (s : PeerConnectionState)
    (between : ServerState → ServerState)
    (hs : s = PeerConnectionState.Disconnected ∨ s = PeerConnectionState.Failed ∨
      s = PeerConnectionState.Closed) :
    (∀ e ∈ (state.ConnectedPeers.Remove client.Id).mutate client client.Destroy,
      e.id ≠ client.Id) ∧
    (∀ e ∈ state.ConnectedPeers, e.id ≠ client.Id → e.rtc.Ref ≠ client.Ref →
      e ∈ (state.ConnectedPeers.Remove client.Id).mutate client client.Destroy) ∧
    (state.ActiveController = client.Id →
      (onClientConnectionChange client state s between).state.ActiveController = "" ∧
      (onClientConnectionChange client state s between).state.ConnectedPeers =
        (between
          { state with
            ConnectedPeers :=
              (state.ConnectedPeers.Remove client.Id).mutate client client.Destroy
          }).ConnectedPeers ∧
      (onClientConnectionChange client state s between).sent =
        (onClientConnectionChange client state s between).state.ConnectedPeers.map
          (fun e => Sent.Meta e.rtc (ConfigMessage.HumanControlState ""))) ∧
    (state.ActiveController ≠ client.Id →
      (onClientConnectionChange client state s between).state.ActiveController =
        state.ActiveController ∧
      (onClientConnectionChange client state s between).state.ConnectedPeers =
        (state.ConnectedPeers.Remove client.Id).mutate client client.Destroy ∧
      (onClientConnectionChange client state s between).sent = []) := by
  have hterm : s = PeerConnectionState.Disconnected ∨ s = PeerConnectionState.Closed
      ∨ s = PeerConnectionState.Failed := by
    rcases hs with h | h | h
    · exact Or.inl h
    · exact Or.inr (Or.inr h)
    · exact Or.inr (Or.inl h)
  refine ⟨fun e he => ?_, fun e he hid href => ?_, ?_⟩
  · unfold RTCMap.mutate RTCMap.Remove at he
    obtain ⟨e0, he0, rfl⟩ := List.mem_map.1 he
    have hne : e0.id ≠ client.Id := by simpa using (List.mem_filter.1 he0).2
    split
    · exact hne
    · exact hne
  · unfold RTCMap.mutate RTCMap.Remove
    refine List.mem_map.2 ⟨e, List.mem_filter.2 ⟨he, by simpa using hid⟩, ?_⟩
    rw [if_neg href]
  · unfold onClientConnectionChange
    rw [if_pos hterm]
    by_cases hac : state.ActiveController = client.Id
    · dsimp only
      rw [if_pos hac]
      refine ⟨fun _ => ⟨rfl, rfl, ?_⟩, fun hn => absurd hac hn⟩
      exact ForEach_single
        (between
          { state with
            ConnectedPeers :=
              (state.ConnectedPeers.Remove client.Id).mutate client client.Destroy
          }).ConnectedPeers
        (fun r => Sent.Meta r (ConfigMessage.HumanControlState ""))
    · dsimp only
      rw [if_neg hac]
      exact ⟨fun h => absurd h hac, fun _ => ⟨rfl, rfl, rfl⟩⟩

/-- C9 at concrete states. In `twinState` the controlling client A fails: its
entry is removed, the car, whose handle holds the same fields and is another
object, keeps its handle untouched and is told that nobody holds control.
And when client B takes control between the read and the clearing of
ActiveController, ActiveController is empty at the end all the same. -/
theorem C9_client_gone_witness :
    onClientConnectionChange ((newHandle 1 "A").withState PeerConnectionState.Failed)
      twinState PeerConnectionState.Failed id =
      { state :=
          { ConnectedPeers := [⟨CarId, Role.Producer, newHandle 0 "A"⟩],
            ActiveController := "" },
        sent := [Sent.Meta (newHandle 0 "A") (ConfigMessage.HumanControlState "")] } ∧
    (onClientConnectionChange ((sampleClient "A").withState PeerConnectionState.Failed)
      controlledState PeerConnectionState.Failed
      (fun st => (onClientRequestControlTakeover (sampleClient "B") st).state)
      ).state.ActiveController = "" :=
  ⟨by decide,
   ((C9_client_gone ((sampleClient "A").withState PeerConnectionState.Failed)
      controlledState PeerConnectionState.Failed
      (fun st => (onClientRequestControlTakeover (sampleClient "B") st).state)
      (Or.inr (Or.inl rfl))).2.2.1 (by decide)).1⟩

/-! ## C10: the producer changes its connection state -/

/-- C10 fails on the code: after a car and a client have offered under the
same id A and connected, the registry holds the car under `CarId` and the
client under A; when the car then disconnects, nothing at all is sent, so
the client, a peer of the registry other than the producer, gets no
ProducerState envelope. -/
theorem C10_same_id_client_not_notified :
    (run CreateFromOffer NewServerState sameIdEvents).ConnectedPeers =
      [ ⟨CarId, Role.Producer, carHandleA.withState PeerConnectionState.Connected⟩,
        ⟨"A", Role.Client, (newHandle 1 "A").withState PeerConnectionState.Connected⟩ ] ∧
    (step CreateFromOffer 4 (run CreateFromOffer NewServerState sameIdEvents)
      (Event.CarConnectionState (carHandleA.withState PeerConnectionState.Connected)
        PeerConnectionState.Disconnected)).sent = [] := by
  decide

/-- What the car handler sends: on every connection-state change of the car
handle, in every state, one car state envelope to every registry entry whose
handle id differs from the id of the car handle, with the clock offset of
the car and with connected = true exactly when the new state is Connected. -/
theorem car_state_broadcast_sends (car : RTC) (state : ServerState)
    (s : PeerConnectionState) :
    (onCarConnectionChange car state s).sent =
      (state.ConnectedPeers.filter (fun e => e.rtc.Id != car.Id)).map
        (fun e => Sent.Meta e.rtc
          (ConfigMessage.CarState (s == PeerConnectionState.Connected)
            car.TimestampOffset)) := by
  have h := ForEach_filter state.ConnectedPeers (fun _ r => r.Id != car.Id)
    (fun r => Sent.Meta r
      (ConfigMessage.CarState (s == PeerConnectionState.Connected) car.TimestampOffset))
  unfold onCarConnectionChange
  dsimp only
  split
  · exact h
  · split
    · exact h
    · exact h

/-! ## C11: the control relay -/

/-- The outcome of a control message when the forward to the car succeeds. -/
theorem control_forward_ok (client : RTC) (state : ServerState) (data : Bytes) (car : RTC)
    (hcar : state.ConnectedPeers.Get CarId = some car)
    (hs : car.SendControlBytes data = none) :
    registerClientControlMessage.OnMessage client state data =
      { state := state, sent := [Sent.Control car data] } := by
  unfold registerClientControlMessage.OnMessage
  simp [hcar, hs]

/-- The outcome of a control message when the forward to the car fails. -/
theorem control_forward_failed (client : RTC) (state : ServerState) (data : Bytes)
    (car : RTC) (err : String)
    (hcar : state.ConnectedPeers.Get CarId = some car)
    (hs : car.SendControlBytes data = some err) :
    registerClientControlMessage.OnMessage client state data =
      { state := state,
        sent := [Sent.Control car data, Sent.Meta client (ConfigMessage.Error err)] } := by
  unfold registerClientControlMessage.OnMessage
  simp [hcar, hs]

/-- C11 fails on the code: after a car has offered and is registered but not
yet connected, no producer is connected; a control message of the connected
client B is nevertheless passed to the control channel of the car, the
failure of that send is reported to B, and no ProducerState envelope is
sent to anyone. -/
theorem C11_forward_to_unconnected_car :
    (run CreateFromOffer NewServerState pendingCarEvents).ConnectedPeers =
      [ ⟨CarId, Role.Producer, roverHandle⟩,
        ⟨"B", Role.Client, (newHandle 1 "B").withState PeerConnectionState.Connected⟩ ] ∧
    roverHandle.IsConnected = false ∧
    (registerClientControlMessage.OnMessage
      ((newHandle 1 "B").withState PeerConnectionState.Connected)
      (run CreateFromOffer NewServerState pendingCarEvents) [1, 2]).sent =
      [ Sent.Control roverHandle [1, 2],
        Sent.Meta ((newHandle 1 "B").withState PeerConnectionState.Connected)
          (ConfigMessage.Error "control channel is not open") ] := by
  decide

/-! ## C12: which entry a terminal connection state removes -/

/-- C12 fails on the code. A car that offered as rover is registered under
`CarId`; when it disconnects, its handler removes the entry under the id
rover, so the entry of the car stays in the registry, holding the released
handle. And after a second offer under the id A was rejected as a duplicate,
the failure of the rejected handle removes the entry of the first client A,
which holds a different handle. -/
theorem C12_terminal_state_removes_by_handle_id :
    (run CreateFromOffer NewServerState roverGoneEvents).ConnectedPeers =
      [⟨CarId, Role.Producer, roverHandle.withState PeerConnectionState.Closed⟩] ∧
    (run CreateFromOffer NewServerState duplicateOfferEvents).ConnectedPeers =
      [⟨"A", Role.Client, (newHandle 0 "A").withState PeerConnectionState.Connected⟩] ∧
    rejectedHandle ≠ (newHandle 0 "A").withState PeerConnectionState.Connected ∧
    rejectedHandle.Ref ≠ ((newHandle 0 "A").withState PeerConnectionState.Connected).Ref ∧
    (step CreateFromOffer 3 (run CreateFromOffer NewServerState duplicateOfferEvents)
      (Event.ClientConnectionState rejectedHandle
        PeerConnectionState.Failed)).state.ConnectedPeers = [] := by
  decide

/-! ## C13: a failed forward of a control payload -/

/-- C13 fails as stated: when the forward of a control payload of client B to
the car fails, an Error envelope with the message of the failure is sent to
B. -/
theorem C13_failed_forward_answered :
    failingCar.SendControlBytes [1, 2] = some "send failed" ∧
    (registerClientControlMessage.OnMessage (sampleClient "B") failingCarState [1, 2]).sent =
      [ Sent.Control failingCar [1, 2],
        Sent.Meta (sampleClient "B") (ConfigMessage.Error "send failed") ] := by
  decide

/-- C13, amended: when the forward of a control payload of a client to the
handle registered under `CarId` fails with an error, the failure is logged
and reported to the sending client: after the failed control send the only
send is one Error envelope with the message of that error to the sending
client, nothing is sent to the car or to any other peer, and the state
(registry and ActiveController) is unchanged. -/
theorem C13_forward_failure_reported (client : RTC) (state : ServerState) (data : Bytes)
    (car : RTC) (err : String)
    (hcar : state.ConnectedPeers.Get CarId = some car)
    (hs : car.SendControlBytes data = some err) :
    (registerClientControlMessage.OnMessage client state data).state = state ∧
    (registerClientControlMessage.OnMessage client state data).sent =
      [Sent.Control car data, Sent.Meta client (ConfigMessage.Error err)] := by
  rw [control_forward_failed client state data car err hcar hs]
  exact ⟨rfl, rfl⟩

/-- C13, amended, at a concrete state: the car refuses the send of the
payload of client B. -/
theorem C13_forward_failure_reported_witness :
    failingCarState.ConnectedPeers.Get CarId = some failingCar ∧
    failingCar.SendControlBytes [3] = some "send failed" ∧
    (registerClientControlMessage.OnMessage (sampleClient "B") failingCarState [3]).state =
      failingCarState ∧
    (registerClientControlMessage.OnMessage (sampleClient "B") failingCarState [3]).sent =
      [ Sent.Control failingCar [3],
        Sent.Meta (sampleClient "B") (ConfigMessage.Error "send failed") ] :=
  ⟨by decide, by decide,
   C13_forward_failure_reported (sampleClient "B") failingCarState [3] failingCar
     "send failed" (by decide) (by decide)⟩

end Passthrough
